import Mathlib

/-!
Shallow embedding of the wage-computation engine in `logic.py`
(`src/.git-rewrite/t/logic.py`) of the diyur003 repository.

Conventions of the embedding:
* Python ints are `Int`; minute counts that only ever grow are `Nat` where noted.
* Python floats are modelled as exact rationals (`ℚ`).  Every float that the
  claims touch is a ratio of small integers (overlap ratios with denominator
  ≤ 2880, wage rates), where double rounding cannot flip any comparison made
  by the code, so the rational model is faithful.
* Python `datetime.date` objects are `PyDate` records; `date.toordinal`,
  `weekday`, `+ timedelta(days=1)` and `- timedelta(days=1)` are implemented
  below following the proleptic Gregorian calendar exactly as CPython does.
* Dictionaries keyed by date strings (`"%Y-%m-%d"`, `"%d/%m/%Y"`) are keyed by
  the `PyDate` itself: `strftime` is injective on the dates involved, so this
  renaming of keys is observationally equal.
* Code that raises (e.g. `span_minutes` on malformed `HH:MM` strings) returns
  `Option`, with `none` standing for the raised exception.
-/

/-! ## Time and calendar utilities -/

/-- Proleptic Gregorian leap-year rule, as used by `datetime.date`. -/
def isLeapYear (y : Int) : Bool :=
  ((y % 4 == 0) && (y % 100 != 0)) || (y % 400 == 0)

/-- Number of days in month `m` (1-12) of year `y`. -/
def daysInMonth (y : Int) (m : Nat) : Nat :=
  if m = 2 then (if isLeapYear y then 29 else 28)
  else if m = 4 ∨ m = 6 ∨ m = 9 ∨ m = 11 then 30
  else 31

/-- Days in year `y` strictly before month `m`. -/
def daysBeforeMonth (y : Int) (m : Nat) : Int :=
  ((List.range' 1 (m - 1)).map (fun k => (daysInMonth y k : Int))).sum

/-- Days before January 1st of year `y` counting from ordinal day 1 =
0001-01-01, exactly as CPython's `datetime._days_before_year`. -/
def daysBeforeYear (y : Int) : Int :=
  365 * (y - 1) + (y - 1) / 4 - (y - 1) / 100 + (y - 1) / 400

/-- A Python `datetime.date`. -/
structure PyDate where
  year : Int
  month : Nat
  day : Nat
deriving DecidableEq

/-- `date.toordinal()`. -/
def PyDate.toordinal (d : PyDate) : Int :=
  daysBeforeYear d.year + daysBeforeMonth d.year d.month + d.day

/-- `date.weekday()`: 0 = Monday, ..., 4 = Friday, 5 = Saturday, 6 = Sunday. -/
def PyDate.weekday (d : PyDate) : Int :=
  (d.toordinal + 6) % 7

/-- `d + timedelta(days=1)` on the calendar representation. -/
def PyDate.nextDay (d : PyDate) : PyDate :=
  if d.day < daysInMonth d.year d.month then ⟨d.year, d.month, d.day + 1⟩
  else if d.month < 12 then ⟨d.year, d.month + 1, 1⟩
  else ⟨d.year + 1, 1, 1⟩

/-- `d - timedelta(days=1)` on the calendar representation. -/
def PyDate.prevDay (d : PyDate) : PyDate :=
  if 1 < d.day then ⟨d.year, d.month, d.day - 1⟩
  else if 1 < d.month then ⟨d.year, d.month - 1, daysInMonth d.year (d.month - 1)⟩
  else ⟨d.year - 1, 12, 31⟩

/-- A calendar-valid date (the only dates `datetime.date` can hold). -/
def PyDate.Valid (d : PyDate) : Prop :=
  1 ≤ d.month ∧ d.month ≤ 12 ∧ 1 ≤ d.day ∧ d.day ≤ daysInMonth d.year d.month

instance (d : PyDate) : Decidable d.Valid := by
  unfold PyDate.Valid; infer_instance

/-! ## Parsing of "HH:MM" strings (`parse_hhmm`, `span_minutes`)

Python's `value.split(":")` followed by `int(...)` conversion; a string that
does not split into exactly two integer parts raises `ValueError`, modelled
as `none`. -/

/-- Split a character list at every `':'` (model of `str.split(":")`). -/
def splitColonAux : List Char → List Char → List (List Char)
  | [], cur => [cur.reverse]
  | c :: cs, cur =>
    if c = ':' then cur.reverse :: splitColonAux cs []
    else splitColonAux cs (c :: cur)

/-- Decimal digit accumulator for `int(...)`. -/
def parseDigitsAux : List Char → Nat → Option Nat
  | [], acc => some acc
  | c :: cs, acc =>
    if c.isDigit then parseDigitsAux cs (acc * 10 + (c.toNat - 48))
    else none

/-- Model of Python `int(s)` restricted to plain decimal digit strings (the
only inputs the data contains); anything else is `none` (a `ValueError`). -/
def parseDigits : List Char → Option Nat
  | [] => none
  | c :: cs => parseDigitsAux (c :: cs) 0

/-- `parse_hhmm` of `logic.py`: `(hours, minutes)` integers from "HH:MM". -/
def parse_hhmm (value : String) : Option (Int × Int) :=
  match splitColonAux value.toList [] with
  | [hs, ms] =>
    match parseDigits hs, parseDigits ms with
    | some h, some m => some ((h : Int), (m : Int))
    | _, _ => none
  | _ => none

def MINUTES_PER_HOUR : Int := 60
def MINUTES_PER_DAY : Int := 1440

/-- `span_minutes` of `logic.py`: start/end minutes-from-midnight, adding a
day to the end when `end ≤ start` (overnight shift). -/
def span_minutes (start_str end_str : String) : Option (Int × Int) :=
  match parse_hhmm start_str, parse_hhmm end_str with
  | some (sh, sm), some (eh, em) =>
    let start := sh * MINUTES_PER_HOUR + sm
    let «end» := eh * MINUTES_PER_HOUR + em
    if «end» ≤ start then some (start, «end» + MINUTES_PER_DAY)
    else some (start, «end»)
  | _, _ => none

/-- Minutes-from-midnight of one "HH:MM" string (the `eh*60+em` computation
done inline by `is_shabbat_time` on the cached Shabbat times). -/
def parseTimeMin (value : String) : Option Int :=
  (parse_hhmm value).map (fun p => p.1 * MINUTES_PER_HOUR + p.2)

/-! ## Shabbat oracle (`is_shabbat_time`) -/

def FRIDAY : Int := 4
def SATURDAY : Int := 5
def SHABBAT_ENTER_DEFAULT : Int := 960
def SHABBAT_EXIT_DEFAULT : Int := 1320

/-- The Shabbat-times cache of `get_shabbat_times_cache`: Saturday date ↦
(candle-lighting string, havdalah string).  In the source the key is the
`"%Y-%m-%d"` string of the Saturday; here the `PyDate` itself. -/
def ShabbatCache : Type := PyDate → Option (String × String)

/-- `is_shabbat_time` of `logic.py` (lines 267-323).  The `try/except` around
the cached-time parsing is modelled by the `Option` match: a parse failure of
either string falls back to the fixed defaults.  The function is total, which
is the embedding of "this must never raise". -/
def is_shabbat_time (day_of_week : Int) (minute_in_day : Int) (shift_id : Int)
    (current_date : PyDate) (shabbat_cache : ShabbatCache) : Bool :=
  if ¬(day_of_week = FRIDAY ∨ day_of_week = SATURDAY) then false
  else
    let target_saturday := if day_of_week = FRIDAY then current_date.nextDay else current_date
    let fallback : Bool :=
      if day_of_week = FRIDAY ∧ SHABBAT_ENTER_DEFAULT ≤ minute_in_day then true
      else if day_of_week = SATURDAY ∧ minute_in_day < SHABBAT_EXIT_DEFAULT then true
      else false
    match shabbat_cache target_saturday with
    | some shabbat_data =>
      match parseTimeMin shabbat_data.1, parseTimeMin shabbat_data.2 with
      | some enter_minutes, some exit_minutes =>
        if day_of_week = FRIDAY ∧ enter_minutes ≤ minute_in_day then true
        else if day_of_week = SATURDAY ∧ minute_in_day < exit_minutes then true
        else false
      | _, _ => fallback
    | none => fallback

/-! ## Wage tier function (`calculate_wage_rate`) -/

def REGULAR_HOURS_LIMIT : Int := 480
def OVERTIME_125_LIMIT : Int := 600

/-- `calculate_wage_rate` of `logic.py` (lines 326-345). -/
def calculate_wage_rate (minutes_in_chain : Int) (is_shabbat : Bool) : String :=
  if minutes_in_chain ≤ REGULAR_HOURS_LIMIT then
    if is_shabbat then "150%" else "100%"
  else if minutes_in_chain ≤ OVERTIME_125_LIMIT then
    if is_shabbat then "175%" else "125%"
  else
    if is_shabbat then "200%" else "150%"

/-! ## Chain wage calculation (`_calculate_chain_wages`) -/

/-- The per-chain tier-minute result dictionary of `_calculate_chain_wages`. -/
structure WageBuckets where
  calc100 : Nat
  calc125 : Nat
  calc150 : Nat
  calc175 : Nat
  calc200 : Nat
  calc150_shabbat : Nat
  calc150_overtime : Nat
  calc150_shabbat_100 : Nat
  calc150_shabbat_50 : Nat
deriving DecidableEq

def WageBuckets.init : WageBuckets := ⟨0, 0, 0, 0, 0, 0, 0, 0, 0⟩

/-- Field-wise sum of two bucket records (the `day_wages[key] += ...` loops). -/
def bucketsCombine (a b : WageBuckets) : WageBuckets :=
  ⟨a.calc100 + b.calc100, a.calc125 + b.calc125, a.calc150 + b.calc150,
   a.calc175 + b.calc175, a.calc200 + b.calc200,
   a.calc150_shabbat + b.calc150_shabbat, a.calc150_overtime + b.calc150_overtime,
   a.calc150_shabbat_100 + b.calc150_shabbat_100, a.calc150_shabbat_50 + b.calc150_shabbat_50⟩

/-- The `if rate == "100%" ... elif ...` bucket update for one chain minute
(lines 631-646 of `logic.py`). -/
def bucketsAddMinute (result : WageBuckets) (rate : String) (is_shab : Bool) : WageBuckets :=
  if rate = "100%" then { result with calc100 := result.calc100 + 1 }
  else if rate = "125%" then { result with calc125 := result.calc125 + 1 }
  else if rate = "150%" then
    if is_shab then
      { result with calc150 := result.calc150 + 1,
                    calc150_shabbat := result.calc150_shabbat + 1,
                    calc150_shabbat_100 := result.calc150_shabbat_100 + 1,
                    calc150_shabbat_50 := result.calc150_shabbat_50 + 1 }
    else
      { result with calc150 := result.calc150 + 1,
                    calc150_overtime := result.calc150_overtime + 1 }
  else if rate = "175%" then { result with calc175 := result.calc175 + 1 }
  else if rate = "200%" then { result with calc200 := result.calc200 + 1 }
  else result

/-- One iteration of the minute loop of `_calculate_chain_wages`: the pair is
(`minutes_counter`, accumulated buckets); `m` is the loop index within the
current segment. -/
def chainMinute (day_date : PyDate) (shabbat_cache : ShabbatCache)
    (seg_start seg_shift_id : Int) (p : Int × WageBuckets) (m : Nat) :
    Int × WageBuckets :=
  let minutes_counter := p.1 + 1
  let minute_abs := seg_start + (m : Int)
  let eff_day_shift := minute_abs / MINUTES_PER_DAY
  let eff_minute := minute_abs % MINUTES_PER_DAY
  let eff_weekday := (day_date.weekday + eff_day_shift) % 7
  let is_shab := is_shabbat_time eff_weekday eff_minute seg_shift_id day_date shabbat_cache
  let rate := calculate_wage_rate minutes_counter is_shab
  (minutes_counter, bucketsAddMinute p.2 rate is_shab)

/-- The `for m in range(seg_end - seg_start)` loop over one chain segment. -/
def chainSeg (day_date : PyDate) (shabbat_cache : ShabbatCache)
    (p : Int × WageBuckets) (seg : Int × Int × Int) : Int × WageBuckets :=
  (List.range (seg.2.1 - seg.1).toNat).foldl
    (chainMinute day_date shabbat_cache seg.1 seg.2.2) p

/-- `_calculate_chain_wages` of `logic.py` (lines 592-648): chain segments are
`(seg_start, seg_end, seg_shift_id)` triples. -/
def calculate_chain_wages (chain_segments : List (Int × Int × Int))
    (day_date : PyDate) (shabbat_cache : ShabbatCache) : WageBuckets :=
  (chain_segments.foldl (chainSeg day_date shabbat_cache) (0, WageBuckets.init)).2

/-! ## Daily segment builder (`_build_daily_map`) -/

/-- `overlap_minutes` of `logic.py` (line 456). -/
def overlap_minutes (a_start a_end b_start b_end : Int) : Int :=
  max 0 (min a_end b_end - max a_start b_start)

/-- One row of `shift_time_segments` as consumed by `_build_daily_map`
(`id`, `start_time`, `end_time`, `wage_percent`, `segment_type`). -/
structure SegTemplate where
  tid : Option Int
  start_time : String
  end_time : String
  wage_percent : Int
  segment_type : String
deriving DecidableEq

/-- One joined `time_reports` row as consumed by `_build_daily_map`; `rdate`
is the already-localised calendar date of the report. -/
structure Report where
  rdate : PyDate
  start_time : Option String
  end_time : Option String
  shift_type_id : Option Int
  work_type : Option String
  shift_name : Option String
  apartment_type_id : Option Int
  is_married : Option Bool
deriving DecidableEq

/-- One tuple appended to `entry["segments"]` by `_build_daily_map`:
`(eff_start, eff_end, eff_type, shift_type_id, segment_id,
apartment_type_id, is_married)`. -/
structure DSeg where
  start : Int
  stop : Int
  segType : String
  shiftTypeId : Int
  segId : Option Int
  aptTypeId : Option Int
  isMarried : Option Bool
deriving DecidableEq

/-- Python truthiness of an optional string (`if not r["start_time"]`). -/
def pyTruthyStr : Option String → Bool
  | none => false
  | some s => s != ""

/-- Python truthiness of an optional int (`if not r["shift_type_id"]`). -/
def pyTruthyInt : Option Int → Bool
  | none => false
  | some i => i != 0

/-- Naive prefix test on character lists. -/
def chPre : List Char → List Char → Bool
  | [], _ => true
  | _ :: _, [] => false
  | a :: as, b :: bs => a = b && chPre as bs

/-- Naive substring test on character lists. -/
def chSub (pat : List Char) : List Char → Bool
  | [] => pat.isEmpty
  | b :: bs => chPre pat (b :: bs) || chSub pat bs

/-- Model of Python `pat in s` for strings. -/
def pyInStr (pat s : String) : Bool := chSub pat.toList s.toList

/-- The midnight split of a report into date-bound parts
(lines 531-536 of `logic.py`). -/
def splitParts (r_date : PyDate) (r_start r_end : Int) : List (PyDate × Int × Int) :=
  if r_end ≤ MINUTES_PER_DAY then [(r_date, r_start, r_end)]
  else [(r_date, r_start, MINUTES_PER_DAY), (r_date.nextDay, 0, r_end - MINUTES_PER_DAY)]

/-- `segments_by_shift.get(shift_type_id, [])`. -/
def lookupSegs (segments_by_shift : List (Int × List SegTemplate)) (sid : Int) :
    List SegTemplate :=
  match segments_by_shift.lookup sid with
  | some l => l
  | none => []

/-- The inner `for seg in seg_list` loop of `_build_daily_map` for one part
(lines 558-587): template re-anchoring for midnight-crossing shifts, local
second-day coordinates, clipped overlap, and the appended segment tuples.
Returns `none` when a template time string fails to parse (`ValueError`). -/
def segsLoop (r_start r_end p_start p_end : Int) (is_second_day is_vacation_report : Bool)
    (sid : Int) (apt : Option Int) (married : Option Bool) :
    List SegTemplate → Option (List DSeg)
  | [] => some []
  | seg :: rest =>
    match span_minutes seg.start_time seg.end_time with
    | none => none
    | some (s0, e0) =>
      let shift_crosses := MINUTES_PER_DAY < r_end
      let shifted := shift_crosses ∧ s0 < r_start
      let s_start := if shifted then s0 + MINUTES_PER_DAY else s0
      let s_end := if shifted then e0 + MINUTES_PER_DAY else e0
      let current_seg_start := if is_second_day then s_start - MINUTES_PER_DAY else s_start
      let current_seg_end := if is_second_day then s_end - MINUTES_PER_DAY else s_end
      let overlap := overlap_minutes p_start p_end current_seg_start current_seg_end
      match segsLoop r_start r_end p_start p_end is_second_day is_vacation_report
          sid apt married rest with
      | none => none
      | some tail =>
        if overlap ≤ 0 then some tail
        else
          some ({ start := max current_seg_start p_start,
                  stop := min current_seg_end p_end,
                  segType := if is_vacation_report then "vacation" else seg.segment_type,
                  shiftTypeId := sid, segId := seg.tid,
                  aptTypeId := apt, isMarried := married } :: tail)

/-- The `for p_date, p_start, p_end in parts` loop of `_build_daily_map`
(lines 549-587), keeping only parts inside the requested (year, month).
Each produced segment is tagged with the calendar date of its part. -/
def partsLoop (r_date : PyDate) (r_start r_end : Int) (is_vacation_report : Bool)
    (sid : Int) (apt : Option Int) (married : Option Bool)
    (seg_list : List SegTemplate) (year : Int) (month : Nat) :
    List (PyDate × Int × Int) → Option (List (PyDate × DSeg))
  | [] => some []
  | p :: rest =>
    if p.1.year = year ∧ p.1.month = month then
      match segsLoop r_start r_end p.2.1 p.2.2 (decide (r_date.toordinal < p.1.toordinal))
          is_vacation_report sid apt married seg_list,
        partsLoop r_date r_start r_end is_vacation_report sid apt married
          seg_list year month rest with
      | some segs, some tail => some (segs.map (fun s => (p.1, s)) ++ tail)
      | _, _ => none
    else
      partsLoop r_date r_start r_end is_vacation_report sid apt married
        seg_list year month rest

/-- The per-report body of `_build_daily_map` (lines 523-587): reports with a
falsy start time, end time or shift type are skipped; the shift's templates
(or the synthetic 100%-work template spanning the report when there are
none) are aligned against every in-month part of the midnight split.
`is_second_day` is the source's `p_date > r_date` comparison of dates. -/
def reportContribution (r : Report) (segments_by_shift : List (Int × List SegTemplate))
    (year : Int) (month : Nat) : Option (List (PyDate × DSeg)) :=
  if ¬(pyTruthyStr r.start_time ∧ pyTruthyStr r.end_time ∧ pyTruthyInt r.shift_type_id)
  then some []
  else
    match r.start_time, r.end_time, r.shift_type_id with
    | some st, some et, some sid =>
      match span_minutes st et with
      | none => none
      | some (r_start, r_end) =>
        let parts := splitParts r.rdate r_start r_end
        let seg_list0 := lookupSegs segments_by_shift sid
        let seg_list :=
          if seg_list0 = [] then
            [{ tid := none, start_time := st, end_time := et,
               wage_percent := 100, segment_type := "work" }]
          else seg_list0
        let shift_name := r.shift_name.getD ""
        let is_vacation_report := (r.work_type == some "sick_vacation")
          || pyInStr "חופשה" shift_name || pyInStr "מחלה" shift_name
        partsLoop r.rdate r_start r_end is_vacation_report sid
          r.apartment_type_id r.is_married seg_list year month parts
    | _, _, _ => some []

/-- `daily_map.setdefault(day_key, ...)["segments"].append(seg)`: association
list keyed by calendar date, appending at the end of the day's segment list
(and appending new days at the end, like dict insertion order). -/
def insertSeg (m : List (PyDate × List DSeg)) (d : PyDate) (s : DSeg) :
    List (PyDate × List DSeg) :=
  match m with
  | [] => [(d, [s])]
  | (d0, l0) :: rest =>
    if d0 = d then (d0, l0 ++ [s]) :: rest
    else (d0, l0) :: insertSeg rest d s

/-- `_build_daily_map` of `logic.py` (lines 511-589).  `none` models an
uncaught `ValueError` from a malformed time string.  Days whose parts produce
no overlapping segment are not materialised as empty entries; all quantities
the claims measure (segment lists, minute sums) are unchanged by this. -/
def build_daily_map (reports : List Report)
    (segments_by_shift : List (Int × List SegTemplate)) (year : Int) (month : Nat) :
    Option (List (PyDate × List DSeg)) :=
  reports.foldlM
    (fun acc r =>
      (reportContribution r segments_by_shift year month).map
        (fun contrib => contrib.foldl (fun acc2 pr => insertSeg acc2 pr.1 pr.2) acc))
    []

/-- Total minutes recorded by one report's contribution. -/
def contributionMinutes (c : Option (List (PyDate × DSeg))) : Int :=
  match c with
  | some l => (l.map (fun pr => pr.2.stop - pr.2.start)).sum
  | none => 0

/-! ## Daily processing (`_process_daily_map`) -/

def BREAK_THRESHOLD_MINUTES : Int := 60
def STANDBY_CANCEL_OVERLAP_THRESHOLD : ℚ := 70 / 100
def DEFAULT_STANDBY_RATE : ℚ := 70
def WORK_DAY_CUTOFF : Int := 480

/-- A standby tuple `(s_start, s_end, seg_id, apt_type, is_married)` of
`_process_daily_map`. -/
structure SBSeg where
  start : Int
  stop : Int
  segId : Option Int
  aptTypeId : Option Int
  isMarried : Option Bool
deriving DecidableEq

/-- One day's entry of the daily map. -/
structure DayEntry where
  date : PyDate
  segments : List DSeg

/-- The segment-type partition at the top of the day loop of
`_process_daily_map` (lines 689-696): `(work, standby, vacation)` lists in
report order; any type other than "standby"/"vacation" counts as work. -/
def daySplit (segs : List DSeg) :
    List (Int × Int × Int) × List SBSeg × List (Int × Int) :=
  segs.foldl
    (fun acc sg =>
      if sg.segType == "standby" then
        (acc.1, acc.2.1 ++ [⟨sg.start, sg.stop, sg.segId, sg.aptTypeId, sg.isMarried⟩], acc.2.2)
      else if sg.segType == "vacation" then
        (acc.1, acc.2.1, acc.2.2 ++ [(sg.start, sg.stop)])
      else
        (acc.1 ++ [(sg.start, sg.stop, sg.shiftTypeId)], acc.2.1, acc.2.2))
    ([], [], [])

/-- Stable insertion into a list sorted by `key` (equal keys keep the
existing order). -/
def insertByKey {α : Type} (key : α → Int) (x : α) : List α → List α
  | [] => [x]
  | y :: ys => if key x < key y then x :: y :: ys else y :: insertByKey key x ys

/-- Model of Python's stable `list.sort(key=...)`. -/
def sortByKey {α : Type} (key : α → Int) (xs : List α) : List α :=
  xs.foldl (fun acc x => insertByKey key x acc) []

/-- The duplicate-removal loop of `_process_daily_map` (lines 701-709): keeps
the first occurrence of each `(start, end)` pair.  In the source this runs
over the **work** segments only. -/
def dedupGo : List (Int × Int × Int) → List (Int × Int) → List (Int × Int × Int)
  | [], _ => []
  | w :: ws, seen =>
    if (w.1, w.2.1) ∈ seen then dedupGo ws seen
    else w :: dedupGo ws ((w.1, w.2.1) :: seen)

def dedupWork (ws : List (Int × Int × Int)) : List (Int × Int × Int) :=
  dedupGo ws []

/-- `sum(overlap_minutes(sb_start, sb_end, w[0], w[1]) for w in work_segments)`. -/
def standbyOverlapSum (work_segments : List (Int × Int × Int)) (sb : SBSeg) : Int :=
  (work_segments.map (fun w => overlap_minutes sb.start sb.stop w.1 w.2.1)).sum

/-- The standby cancellation filter of `_process_daily_map` (lines 711-723):
duration ≤ 0 standby segments are dropped; a standby survives exactly when
its work-overlap ratio is `< 0.70`.  The float ratio is modelled as the exact
rational, which agrees with the double comparison for all minute counts. -/
def standbyCancelFilter (work_segments : List (Int × Int × Int)) :
    List SBSeg → List SBSeg
  | [] => []
  | sb :: rest =>
    let standby_duration := sb.stop - sb.start
    if standby_duration ≤ 0 then standbyCancelFilter work_segments rest
    else if ((standbyOverlapSum work_segments sb : ℚ) / (standby_duration : ℚ))
        < STANDBY_CANCEL_OVERLAP_THRESHOLD then
      sb :: standbyCancelFilter work_segments rest
    else
      standbyCancelFilter work_segments rest

/-- One event dictionary of the `all_events` list (lines 726-735).  Keys that
a given event type does not carry are `none`; `event.get("shift_id", 0)` and
`event.get("segment_id") or 0` read them with the source's defaults. -/
structure DayEvent where
  start : Int
  stop : Int
  etype : String
  shiftId : Option Int
  segId : Option Int
  aptTypeId : Option Int
  isMarried : Option Bool
deriving DecidableEq

/-- Building and chronologically sorting `all_events` (lines 726-735). -/
def dayEvents (work : List (Int × Int × Int)) (standby : List SBSeg)
    (vacation : List (Int × Int)) : List DayEvent :=
  sortByKey (fun e => e.start)
    (work.map (fun w => ⟨w.1, w.2.1, "work", some w.2.2, none, none, none⟩)
      ++ standby.map (fun s => ⟨s.start, s.stop, "standby", none, s.segId, s.aptTypeId, s.isMarried⟩)
      ++ vacation.map (fun v => ⟨v.1, v.2, "vacation", none, none, none, none⟩))

/-- A standby-rate resolver (`get_standby_rate_fn`):
`(seg_id, apartment_type_id, is_married) ↦ rate`. -/
def RateFn : Type := Int → Option Int → Bool → ℚ

/-- The mutable state of the event loop of `_process_daily_map`:
`current_chain_segments`, `last_end`, `day_standby_payment`,
`day_vacation_minutes` and `day_wages`. -/
structure ChainState where
  chain : List (Int × Int × Int)
  lastEnd : Option Int
  standbyPayment : ℚ
  vacationMinutes : Int
  wages : WageBuckets

def ChainState.init : ChainState := ⟨[], none, 0, 0, WageBuckets.init⟩

/-- `close_chain` (lines 748-757). -/
def closeChain (day_date : PyDate) (shabbat_cache : ShabbatCache) (st : ChainState) :
    ChainState :=
  if st.chain = [] then st
  else { st with
    wages := bucketsCombine st.wages (calculate_chain_wages st.chain day_date shabbat_cache),
    chain := [] }

/-- The body of `for event in all_events` (lines 759-796): chain breaking on
special events or gaps over 60 minutes, standby payment (skipped for the
minute-0 continuation of a cross-midnight standby), vacation minutes, and
chain extension for work events. -/
def processEvent (day_date : PyDate) (shabbat_cache : ShabbatCache) (rateFn : RateFn)
    (st : ChainState) (ev : DayEvent) : ChainState :=
  let is_special := ev.etype == "standby" || ev.etype == "vacation"
  let should_break :=
    if st.chain ≠ [] then
      if is_special then true
      else
        match st.lastEnd with
        | some last_end => decide (BREAK_THRESHOLD_MINUTES < ev.start - last_end)
        | none => false
    else false
  let st1 := if should_break then closeChain day_date shabbat_cache st else st
  if is_special then
    let is_continuation := ev.start == 0
    let st2 :=
      if ev.etype == "standby" && !is_continuation then
        { st1 with standbyPayment := st1.standbyPayment
            + rateFn (ev.segId.getD 0) ev.aptTypeId (ev.isMarried.getD false) }
      else if ev.etype == "vacation" then
        { st1 with vacationMinutes := st1.vacationMinutes + (ev.stop - ev.start) }
      else st1
    { st2 with lastEnd := some ev.stop }
  else
    { st1 with chain := st1.chain ++ [(ev.start, ev.stop, ev.shiftId.getD 0)],
               lastEnd := some ev.stop }

def processEvents (day_date : PyDate) (shabbat_cache : ShabbatCache) (rateFn : RateFn)
    (events : List DayEvent) (st : ChainState) : ChainState :=
  events.foldl (processEvent day_date shabbat_cache rateFn) st

/-- One step of the actual-work-day loop (lines 808-816). -/
def workDayStep (day_date : PyDate) (year : Int) (month : Nat)
    (acc : Finset PyDate) (w : Int × Int × Int) : Finset PyDate :=
  if WORK_DAY_CUTOFF ≤ w.1 then insert day_date acc
  else if WORK_DAY_CUTOFF < w.2.1 then insert day_date acc
  else if day_date.prevDay.year = year ∧ day_date.prevDay.month = month then
    insert day_date.prevDay acc
  else acc

/-- The 08:00-boundary actual-work-day counting over the (deduplicated) work
segments of a day (lines 807-816). -/
def workDaysOf (day_date : PyDate) (year : Int) (month : Nat)
    (ws : List (Int × Int × Int)) : Finset PyDate :=
  ws.foldl (workDayStep day_date year month) ∅

/-- The day's work segments after sorting and deduplication
(lines 698, 701-709). -/
def dayWorkOfEntry (entry : DayEntry) : List (Int × Int × Int) :=
  dedupWork (sortByKey (fun w => w.1) (daySplit entry.segments).1)

/-- The day's surviving standby segments after sorting and the cancellation
filter (lines 699, 711-723). -/
def dayStandbyOfEntry (entry : DayEntry) : List SBSeg :=
  standbyCancelFilter (dayWorkOfEntry entry)
    (sortByKey (fun s => s.start) (daySplit entry.segments).2.1)

/-- The day's chronologically sorted event sequence (lines 726-735). -/
def dayEventsOfEntry (entry : DayEntry) : List DayEvent :=
  dayEvents (dayWorkOfEntry entry) (dayStandbyOfEntry entry) (daySplit entry.segments).2.2

/-- The per-day results of `_process_daily_map`. -/
structure DayResult where
  wages : WageBuckets
  standbyPayment : ℚ
  vacationMinutes : Int
  workDays : Finset PyDate
  hasVacationDay : Bool

/-- The body of the `for day_key, entry in sorted(daily_map.items())` loop of
`_process_daily_map` (lines 681-819) for one day. -/
def processDay (rateFn : RateFn) (shabbat_cache : ShabbatCache)
    (year : Int) (month : Nat) (entry : DayEntry) : DayResult :=
  let final := closeChain entry.date shabbat_cache
    (processEvents entry.date shabbat_cache rateFn (dayEventsOfEntry entry) ChainState.init)
  { wages := final.wages,
    standbyPayment := final.standbyPayment,
    vacationMinutes := final.vacationMinutes,
    workDays := workDaysOf entry.date year month (dayWorkOfEntry entry),
    hasVacationDay := !(daySplit entry.segments).2.2.isEmpty }

/-! ## Standby rate resolver (`get_standby_rate_from_cache`) -/

/-- The pre-loaded rate table of `calculate_monthly_summary` (lines 1150-1156):
`(segment_id, apartment_type_id, marital_status, priority) ↦ amount / 100`. -/
def StandbyRatesCache : Type := Int × Option Int × String × Int → Option ℚ

/-- `get_standby_rate_from_cache` of `logic.py` (lines 1018-1033). -/
def get_standby_rate_from_cache (standby_rates_cache : StandbyRatesCache)
    (seg_id : Int) (apt_type : Option Int) (is_married : Bool) : ℚ :=
  let marital_status := if is_married then "married" else "single"
  match apt_type with
  | some a =>
    match standby_rates_cache (seg_id, some a, marital_status, 10) with
    | some val => val
    | none =>
      match standby_rates_cache (seg_id, none, marital_status, 0) with
      | some val => val
      | none => DEFAULT_STANDBY_RATE
  | none =>
    match standby_rates_cache (seg_id, none, marital_status, 0) with
    | some val => val
    | none => DEFAULT_STANDBY_RATE

/-! ## Accrual calculation (`calculate_accruals`) -/

def STANDARD_WORK_DAYS_PER_MONTH : ℚ := 2166 / 100
def MAX_SICK_DAYS_PER_MONTH : ℚ := 3 / 2

/-- `calculate_annual_vacation_quota` of `logic.py` (lines 348-392). -/
def calculate_annual_vacation_quota (work_year : Int) (is_6_day_week : Bool) : Int :=
  if is_6_day_week then
    if work_year ≤ 4 then 14
    else if work_year = 5 then 16
    else if work_year = 6 then 18
    else if work_year = 7 then 21
    else if work_year = 8 then 22
    else if work_year = 9 then 23
    else 24
  else
    if work_year ≤ 5 then 12
    else if work_year = 6 then 14
    else if work_year = 7 then 15
    else if work_year = 8 then 16
    else if work_year = 9 then 17
    else if work_year = 10 then 18
    else if work_year = 11 then 19
    else 20

/-- Python `int(x)` on a rational: truncation toward zero. -/
def pyTrunc (q : ℚ) : Int := if 0 ≤ q then ⌊q⌋ else -⌊-q⌋

structure VacationDetails where
  seniority : Int
  annual_quota : Int
  job_scope_pct : Int
deriving DecidableEq

structure Accruals where
  sick_days_accrued : ℚ
  vacation_days_accrued : ℚ
  vacation_details : VacationDetails
deriving DecidableEq

/-- `calculate_accruals` of `logic.py` (lines 395-453).  The start date is the
already-localised employment start date (`none` when falsy); seniority uses
`diff.days / 365.25`, truncated like Python `int(...)`. -/
def calculate_accruals (actual_work_days : Int) (start_date : Option PyDate)
    (report_year : Int) (report_month : Nat) : Accruals :=
  let job_scope : ℚ := min ((actual_work_days : ℚ) / STANDARD_WORK_DAYS_PER_MONTH) 1
  let sick_days_accrued := job_scope * MAX_SICK_DAYS_PER_MONTH
  let current_work_year : Int :=
    match start_date with
    | none => 1
    | some start_dt =>
      let report_dt : PyDate := ⟨report_year, report_month, 1⟩
      let diff_days : Int := report_dt.toordinal - start_dt.toordinal
      let seniority_years : ℚ := (diff_days : ℚ) / (36525 / 100)
      max 1 (pyTrunc seniority_years + 1)
  let is_6_day_week := 20 < actual_work_days
  let annual_quota := calculate_annual_vacation_quota current_work_year is_6_day_week
  let vacation_days_accrued := ((annual_quota : ℚ) / 12) * job_scope
  { sick_days_accrued := sick_days_accrued,
    vacation_days_accrued := vacation_days_accrued,
    vacation_details :=
      { seniority := current_work_year, annual_quota := annual_quota,
        job_scope_pct := pyTrunc (job_scope * 100) } }

/-! ## Shared helper definitions for the claims -/

/-- An empty Shabbat cache (no rows in `shabbat_times`). -/
def emptyShabbatCache : ShabbatCache := fun _ => none

/-- The condition under which `is_shabbat_time` uses its default times: the
Saturday has no cache row, or one of its cached time strings fails to parse. -/
def shabbatFallbackApplies (shabbat_cache : ShabbatCache) (sat : PyDate) : Prop :=
  match shabbat_cache sat with
  | none => True
  | some shabbat_data =>
    parseTimeMin shabbat_data.1 = none ∨ parseTimeMin shabbat_data.2 = none

/-! ## Calendar lemmas -/

theorem daysBeforeMonth_succ (y : Int) (m : Nat) (h : 1 ≤ m) :
    daysBeforeMonth y (m + 1) = daysBeforeMonth y m + daysInMonth y m := by
  unfold daysBeforeMonth
  have h1 : m + 1 - 1 = (m - 1) + 1 := by omega
  have h2 : 1 + 1 * (m - 1) = m := by omega
  rw [h1, List.range'_concat, h2, List.map_append, List.sum_append]
  simp

theorem daysBeforeYear_succ (y : Int) :
    daysBeforeYear (y + 1) = daysBeforeYear y + 365 + (if isLeapYear y then 1 else 0) := by
  unfold daysBeforeYear isLeapYear
  split_ifs with h
  · simp only [Bool.or_eq_true, Bool.and_eq_true, beq_iff_eq, bne_iff_ne, ne_eq] at h
    omega
  · simp only [Bool.or_eq_true, Bool.and_eq_true, beq_iff_eq, bne_iff_ne, ne_eq,
      not_or, not_and, not_not] at h
    omega

theorem daysBeforeMonth_twelve (y : Int) :
    daysBeforeMonth y 12 + daysInMonth y 12 = 365 + (if isLeapYear y then 1 else 0) := by
  unfold daysBeforeMonth daysInMonth
  norm_num [List.range']
  split_ifs <;> norm_num

theorem toordinal_nextDay (d : PyDate) (h : d.Valid) :
    d.nextDay.toordinal = d.toordinal + 1 := by
  obtain ⟨h1, h2, h3, h4⟩ := h
  unfold PyDate.nextDay
  split_ifs with hd hm
  · simp only [PyDate.toordinal]
    push_cast
    ring
  · have hde : d.day = daysInMonth d.year d.month := by omega
    simp only [PyDate.toordinal, daysBeforeMonth_succ d.year d.month h1, hde]
    push_cast
    ring
  · have hm12 : d.month = 12 := by omega
    have hde : d.day = daysInMonth d.year 12 := by rw [← hm12]; omega
    have h12 := daysBeforeMonth_twelve d.year
    have hdb1 : daysBeforeMonth (d.year + 1) 1 = 0 := by
      unfold daysBeforeMonth
      simp [List.range']
    simp only [PyDate.toordinal, hm12, hde, daysBeforeYear_succ, hdb1]
    push_cast
    omega

/-! ## Claims -/

/-- C1: for every chain-minute index `n ≥ 1` and Shabbat flag, the wage-tier
function returns "100%"/"150%" for `n ≤ 480`, "125%"/"175%" for
`480 < n ≤ 600` and "150%"/"200%" for `n > 600`, the second label of each
pair applying on Shabbat; it is a pure function of `(n, shabbat_flag)`. -/
theorem wage_rate_tier_table (n : Int) (shab : Bool) (hn : 1 ≤ n) :
    (n ≤ 480 → calculate_wage_rate n shab = (if shab then "150%" else "100%")) ∧
    (480 < n → n ≤ 600 → calculate_wage_rate n shab = (if shab then "175%" else "125%")) ∧
    (600 < n → calculate_wage_rate n shab = (if shab then "200%" else "150%")) := by
  unfold calculate_wage_rate REGULAR_HOURS_LIMIT OVERTIME_125_LIMIT
  refine ⟨fun h1 => ?_, fun h1 h2 => ?_, fun h1 => ?_⟩ <;>
    split_ifs <;> first | rfl | omega

/-- Witness for C1 at concrete tier boundaries. -/
theorem wage_rate_tier_table_check :
    calculate_wage_rate 3 false = "100%" ∧ calculate_wage_rate 481 true = "175%" ∧
    calculate_wage_rate 601 false = "150%" :=
  ⟨(wage_rate_tier_table 3 false (by decide)).1 (by decide),
   (wage_rate_tier_table 481 true (by decide)).2.1 (by decide) (by decide),
   (wage_rate_tier_table 601 false (by decide)).2.2 (by decide)⟩

theorem shabbatFallbackCases (dow minute : Int) :
    ((if dow = 4 ∧ SHABBAT_ENTER_DEFAULT ≤ minute then true
      else if dow = 5 ∧ minute < SHABBAT_EXIT_DEFAULT then true else false) = true ↔
      ((dow = 4 ∧ 960 ≤ minute) ∨ (dow = 5 ∧ minute < 1320))) := by
  unfold SHABBAT_ENTER_DEFAULT SHABBAT_EXIT_DEFAULT
  split_ifs with ha hb
  · simp [ha]
  · simp [hb]
  · simp only [Bool.false_eq_true, false_iff]
    push_neg at ha hb ⊢
    exact ⟨ha, hb⟩

/-- C7: the Shabbat oracle is a total function (the embedding of "never
raises"); on any weekday other than Friday (4) or Saturday (5) it returns
`false` whatever the cache holds, and when the relevant Saturday has no cache
row or a malformed time string it returns `true` exactly for Friday minutes
`≥ 960` and Saturday minutes `< 1320`. -/
theorem shabbat_defaults_and_weekdays (dow minute sid : Int) (d : PyDate)
    (cache : ShabbatCache) :
    (¬(dow = 4 ∨ dow = 5) → is_shabbat_time dow minute sid d cache = false) ∧
    (shabbatFallbackApplies cache (if dow = 4 then d.nextDay else d) →
      (is_shabbat_time dow minute sid d cache = true ↔
        ((dow = 4 ∧ 960 ≤ minute) ∨ (dow = 5 ∧ minute < 1320)))) := by
  constructor
  · intro h
    simp [is_shabbat_time, FRIDAY, SATURDAY, h]
  · intro hfb
    unfold shabbatFallbackApplies at hfb
    by_cases hd : dow = 4 ∨ dow = 5
    · simp only [is_shabbat_time, FRIDAY, SATURDAY]
      rw [if_neg (not_not_intro hd)]
      rcases hc : cache (if dow = 4 then d.nextDay else d) with _ | sd
      · exact shabbatFallbackCases dow minute
      · rw [hc] at hfb
        have hfb2 : parseTimeMin sd.1 = none ∨ parseTimeMin sd.2 = none := hfb
        show ((match parseTimeMin sd.1, parseTimeMin sd.2 with
              | some enter_minutes, some exit_minutes =>
                if dow = 4 ∧ enter_minutes ≤ minute then true
                else if dow = 5 ∧ minute < exit_minutes then true else false
              | _, _ =>
                if dow = 4 ∧ SHABBAT_ENTER_DEFAULT ≤ minute then true
                else if dow = 5 ∧ minute < SHABBAT_EXIT_DEFAULT then true else false) = true
            ↔ ((dow = 4 ∧ 960 ≤ minute) ∨ (dow = 5 ∧ minute < 1320)))
        rcases hp1 : parseTimeMin sd.1 with _ | v1 <;>
          rcases hp2 : parseTimeMin sd.2 with _ | v2
        · exact shabbatFallbackCases dow minute
        · exact shabbatFallbackCases dow minute
        · exact shabbatFallbackCases dow minute
        · rw [hp1, hp2] at hfb2
          simp at hfb2
    · push_neg at hd
      simp [is_shabbat_time, FRIDAY, SATURDAY, hd.1, hd.2]

/-- Witness for C7: a Wednesday is never Shabbat, and with an empty cache a
Friday minute at 16:40 falls under the default Shabbat window. -/
theorem shabbat_defaults_and_weekdays_check :
    is_shabbat_time 2 1000 0 ⟨2025, 1, 8⟩ emptyShabbatCache = false ∧
    is_shabbat_time 4 1000 0 ⟨2025, 1, 10⟩ emptyShabbatCache = true :=
  ⟨(shabbat_defaults_and_weekdays 2 1000 0 ⟨2025, 1, 8⟩ emptyShabbatCache).1 (by decide),
   ((shabbat_defaults_and_weekdays 4 1000 0 ⟨2025, 1, 10⟩ emptyShabbatCache).2
      (by simp [shabbatFallbackApplies, emptyShabbatCache])).mpr (by norm_num)⟩

/-- C8: the standby-rate lookup prefers a priority-10 row matching the
apartment type and marital status, then a priority-0 row with null apartment
type, and otherwise returns the fixed default rate 70.0. -/
theorem standby_rate_priority_lookup (cache : StandbyRatesCache) (seg_id : Int)
    (apt_type : Option Int) (is_married : Bool) :
    (∀ a val, apt_type = some a →
      cache (seg_id, some a, (if is_married then "married" else "single"), 10) = some val →
      get_standby_rate_from_cache cache seg_id apt_type is_married = val) ∧
    (∀ val,
      (∀ a, apt_type = some a →
        cache (seg_id, some a, (if is_married then "married" else "single"), 10) = none) →
      cache (seg_id, none, (if is_married then "married" else "single"), 0) = some val →
      get_standby_rate_from_cache cache seg_id apt_type is_married = val) ∧
    ((∀ a, apt_type = some a →
        cache (seg_id, some a, (if is_married then "married" else "single"), 10) = none) →
      cache (seg_id, none, (if is_married then "married" else "single"), 0) = none →
      get_standby_rate_from_cache cache seg_id apt_type is_married = DEFAULT_STANDBY_RATE) := by
  refine ⟨?_, ?_, ?_⟩
  · rintro a val rfl h10
    simp [get_standby_rate_from_cache, h10]
  · intro val h10 h0
    cases apt_type with
    | none => simp [get_standby_rate_from_cache, h0]
    | some a => simp [get_standby_rate_from_cache, h10 a rfl, h0]
  · intro h10 h0
    cases apt_type with
    | none => simp [get_standby_rate_from_cache, h0]
    | some a => simp [get_standby_rate_from_cache, h10 a rfl, h0]

/-- A small concrete rate table for the C8 witness. -/
def rateTableExample : StandbyRatesCache := fun k =>
  if k = (7, some 2, "married", 10) then some 55
  else if k = (7, none, "married", 0) then some 41
  else none

/-- Witness for C8: the priority-10 row wins for apartment type 2; segment 9
has no rows and falls back to the default. -/
theorem standby_rate_priority_lookup_check :
    get_standby_rate_from_cache rateTableExample 7 (some 2) true = 55 ∧
    get_standby_rate_from_cache rateTableExample 9 none true = DEFAULT_STANDBY_RATE :=
  ⟨(standby_rate_priority_lookup rateTableExample 7 (some 2) true).1 2 55 rfl
      (by simp [rateTableExample]),
   (standby_rate_priority_lookup rateTableExample 9 none true).2.2
      (by intro a ha; cases ha) (by simp [rateTableExample])⟩

/-- C3: a standby segment with non-positive duration is dropped; otherwise it
survives the cancellation filter exactly when its summed work overlap divided
by its duration is below 0.70 (so a ratio of exactly 70%, or full containment
in work, is cancelled). -/
theorem standby_cancellation_threshold (work_segments : List (Int × Int × Int))
    (sbs : List SBSeg) (sb : SBSeg) :
    sb ∈ standbyCancelFilter work_segments sbs ↔
      sb ∈ sbs ∧ 0 < sb.stop - sb.start ∧
        ((standbyOverlapSum work_segments sb : ℚ) / ((sb.stop - sb.start : Int) : ℚ))
          < 70 / 100 := by
  induction sbs with
  | nil => simp [standbyCancelFilter]
  | cons x rest ih =>
    simp only [standbyCancelFilter, STANDBY_CANCEL_OVERLAP_THRESHOLD]
    split_ifs with h1 h2
    · rw [ih]
      constructor
      · rintro ⟨hm, hd, hr⟩
        exact ⟨List.mem_cons_of_mem x hm, hd, hr⟩
      · rintro ⟨hm, hd, hr⟩
        rcases List.mem_cons.mp hm with he | ht
        · rw [he] at hd
          omega
        · exact ⟨ht, hd, hr⟩
    · constructor
      · intro hm
        rcases List.mem_cons.mp hm with he | ht
        · rw [he]
          exact ⟨List.mem_cons_self x rest, by omega, he ▸ h2⟩
        · have hh := ih.mp ht
          exact ⟨List.mem_cons_of_mem x hh.1, hh.2⟩
      · rintro ⟨hm, hd, hr⟩
        rcases List.mem_cons.mp hm with he | ht
        · rw [he]
          exact List.mem_cons_self x (standbyCancelFilter work_segments rest)
        · exact List.mem_cons_of_mem x (ih.mpr ⟨ht, hd, hr⟩)
    · rw [ih]
      constructor
      · rintro ⟨hm, hd, hr⟩
        exact ⟨List.mem_cons_of_mem x hm, hd, hr⟩
      · rintro ⟨hm, hd, hr⟩
        rcases List.mem_cons.mp hm with he | ht
        · rw [he] at hr
          exact absurd hr h2
        · exact ⟨ht, hd, hr⟩

/-! Concrete inputs for the C9 counterexample: a day whose segment list holds
the same standby row twice (as duplicate source rows would produce). -/

def dupStandbySeg : DSeg := ⟨600, 700, "standby", 1, some 3, none, none⟩

def dupStandbyEntry : DayEntry := ⟨⟨2025, 1, 15⟩, [dupStandbySeg, dupStandbySeg]⟩

def dupRateFn : RateFn := fun seg_id apt married =>
  get_standby_rate_from_cache (fun _ => none) seg_id apt married

/-- C9 counterexample: two identical (start, end) standby segments are both
still present when the cancellation filter runs, and both draw the standby
rate (140 = 2 × 70); the claimed general deduplication would leave one
instance paying 70. -/
theorem standby_duplicates_not_merged :
    dayStandbyOfEntry dupStandbyEntry =
      [⟨600, 700, some 3, none, none⟩, ⟨600, 700, some 3, none, none⟩] ∧
    (processDay dupRateFn emptyShabbatCache 2025 1 dupStandbyEntry).standbyPayment = 140 ∧
    (140 : ℚ) ≠ 70 := by
  refine ⟨?_, ?_, by norm_num⟩
  · norm_num [dayStandbyOfEntry, dayWorkOfEntry, daySplit, dedupWork, dedupGo, sortByKey,
      insertByKey, standbyCancelFilter, standbyOverlapSum, overlap_minutes,
      STANDBY_CANCEL_OVERLAP_THRESHOLD, dupStandbyEntry, dupStandbySeg]
  · norm_num [processDay, dayEventsOfEntry, dayWorkOfEntry, dayStandbyOfEntry, daySplit,
      dedupWork, dedupGo, sortByKey, insertByKey, standbyCancelFilter, standbyOverlapSum,
      overlap_minutes, dayEvents, processEvents, processEvent, closeChain, ChainState.init,
      dupRateFn, get_standby_rate_from_cache, DEFAULT_STANDBY_RATE,
      STANDBY_CANCEL_OVERLAP_THRESHOLD, dupStandbyEntry, dupStandbySeg, emptyShabbatCache]

theorem dedupGo_key_mem (k : Int × Int) :
    ∀ (ws : List (Int × Int × Int)) (seen : List (Int × Int)),
      k ∈ (dedupGo ws seen).map (fun w => (w.1, w.2.1)) ↔
        k ∈ ws.map (fun w => (w.1, w.2.1)) ∧ k ∉ seen := by
  intro ws
  induction ws with
  | nil => intro seen; simp [dedupGo]
  | cons w rest ih =>
    intro seen
    unfold dedupGo
    split_ifs with h
    · rw [ih]
      simp only [List.map_cons, List.mem_cons]
      constructor
      · rintro ⟨hm, hs⟩
        exact ⟨Or.inr hm, hs⟩
      · rintro ⟨hk | hm, hs⟩
        · rw [hk] at hs
          exact absurd h hs
        · exact ⟨hm, hs⟩
    · simp only [List.map_cons, List.mem_cons, ih]
      constructor
      · rintro (hk | ⟨hm, hs⟩)
        · refine ⟨Or.inl hk, ?_⟩
          rw [hk]
          exact h
        · exact ⟨Or.inr hm, fun hc => hs (Or.inr hc)⟩
      · rintro ⟨hk | hm, hs⟩
        · exact Or.inl hk
        · by_cases hkw : k = (w.1, w.2.1)
          · exact Or.inl hkw
          · exact Or.inr ⟨hm, by simp [hkw, hs]⟩

theorem dedupGo_key_nodup :
    ∀ (ws : List (Int × Int × Int)) (seen : List (Int × Int)),
      ((dedupGo ws seen).map (fun w => (w.1, w.2.1))).Nodup := by
  intro ws
  induction ws with
  | nil => intro seen; simp [dedupGo]
  | cons w rest ih =>
    intro seen
    unfold dedupGo
    split_ifs with h
    · exact ih seen
    · simp only [List.map_cons, List.nodup_cons]
      refine ⟨fun hc => ?_, ih _⟩
      have := (dedupGo_key_mem (w.1, w.2.1) rest ((w.1, w.2.1) :: seen)).mp hc
      exact this.2 (List.mem_cons_self _ _)

/-- C9 amended: before the cancellation filter runs, only the day's **work**
segments are deduplicated by identical (start, end): the deduplicated work
list carries each (start, end) pair at most once while keeping exactly the
pairs of the input, and the filter's standby input is the sorted standby list
unchanged (duplicate standby rows are each kept and each paid). -/
theorem dedup_applies_to_work_segments_only (ws : List (Int × Int × Int))
    (entry : DayEntry) :
    ((dedupWork ws).map (fun w => (w.1, w.2.1))).Nodup ∧
    (∀ k, k ∈ (dedupWork ws).map (fun w => (w.1, w.2.1)) ↔
      k ∈ ws.map (fun w => (w.1, w.2.1))) ∧
    dayStandbyOfEntry entry =
      standbyCancelFilter (dayWorkOfEntry entry)
        (sortByKey (fun s => s.start) (daySplit entry.segments).2.1) := by
  refine ⟨dedupGo_key_nodup ws [], fun k => ?_, rfl⟩
  rw [dedupWork, dedupGo_key_mem]
  simp

theorem closeChain_payment (day_date : PyDate) (cache : ShabbatCache) (st : ChainState) :
    (closeChain day_date cache st).standbyPayment = st.standbyPayment := by
  unfold closeChain
  split_ifs <;> rfl

theorem processEvent_payment (day_date : PyDate) (cache : ShabbatCache) (rateFn : RateFn)
    (st : ChainState) (ev : DayEvent) :
    (processEvent day_date cache rateFn st ev).standbyPayment =
      st.standbyPayment +
        (if ev.etype == "standby" && ev.start != 0 then
          rateFn (ev.segId.getD 0) ev.aptTypeId (ev.isMarried.getD false) else 0) := by
  simp only [processEvent]
  split_ifs <;> simp_all [closeChain_payment]

theorem processEvents_payment (day_date : PyDate) (cache : ShabbatCache) (rateFn : RateFn) :
    ∀ (events : List DayEvent) (st : ChainState),
      (processEvents day_date cache rateFn events st).standbyPayment =
        st.standbyPayment +
          ((events.filter (fun e => e.etype == "standby" && e.start != 0)).map
            (fun e => rateFn (e.segId.getD 0) e.aptTypeId (e.isMarried.getD false))).sum := by
  intro events
  induction events with
  | nil => intro st; simp [processEvents]
  | cons e rest ih =>
    intro st
    simp only [processEvents, List.foldl_cons] at ih ⊢
    rw [ih, processEvent_payment]
    by_cases h : (e.etype == "standby" && e.start != 0) = true
    · rw [if_pos h, List.filter_cons, if_pos h]
      simp only [List.map_cons, List.sum_cons]
      ring
    · rw [if_neg h, List.filter_cons, if_neg h]
      ring

/-- C5: the standby payment of a processed day adds, for every surviving
standby event not starting at minute 0, its resolved rate exactly once;
events starting at minute 0 (continuations of a cross-midnight standby paid
the previous day) contribute nothing. -/
theorem standby_payment_per_event (rateFn : RateFn) (cache : ShabbatCache)
    (year : Int) (month : Nat) (entry : DayEntry) :
    (processDay rateFn cache year month entry).standbyPayment =
      (((dayEventsOfEntry entry).filter (fun e => e.etype == "standby" && e.start != 0)).map
        (fun e => rateFn (e.segId.getD 0) e.aptTypeId (e.isMarried.getD false))).sum := by
  have hp : (processDay rateFn cache year month entry).standbyPayment
      = (closeChain entry.date cache
          (processEvents entry.date cache rateFn (dayEventsOfEntry entry)
            ChainState.init)).standbyPayment := rfl
  rw [hp, closeChain_payment, processEvents_payment]
  simp [ChainState.init]

theorem mem_workDayStep (day_date : PyDate) (year : Int) (month : Nat)
    (acc : Finset PyDate) (w : Int × Int × Int) (d : PyDate) :
    d ∈ workDayStep day_date year month acc w ↔
      d ∈ acc ∨
        (d = day_date ∧ (480 ≤ w.1 ∨ (w.1 < 480 ∧ 480 < w.2.1))) ∨
        (d = day_date.prevDay ∧ w.1 < 480 ∧ w.2.1 ≤ 480 ∧
          day_date.prevDay.year = year ∧ day_date.prevDay.month = month) := by
  unfold workDayStep WORK_DAY_CUTOFF
  split_ifs with h1 h2 h3
  · simp only [Finset.mem_insert]
    constructor
    · rintro (rfl | hacc)
      · exact Or.inr (Or.inl ⟨rfl, Or.inl h1⟩)
      · exact Or.inl hacc
    · rintro (hacc | ⟨rfl, hc⟩ | ⟨rfl, hlt, hc⟩)
      · exact Or.inr hacc
      · exact Or.inl rfl
      · exact absurd h1 (by omega)
  · simp only [Finset.mem_insert]
    constructor
    · rintro (rfl | hacc)
      · exact Or.inr (Or.inl ⟨rfl, Or.inr ⟨by omega, h2⟩⟩)
      · exact Or.inl hacc
    · rintro (hacc | ⟨rfl, hc⟩ | ⟨rfl, hlt, hle, hc⟩)
      · exact Or.inr hacc
      · exact Or.inl rfl
      · exact absurd h2 (by omega)
  · simp only [Finset.mem_insert]
    constructor
    · rintro (rfl | hacc)
      · exact Or.inr (Or.inr ⟨rfl, by omega, by omega, h3.1, h3.2⟩)
      · exact Or.inl hacc
    · rintro (hacc | ⟨rfl, hc⟩ | ⟨rfl, hlt, hle, hc⟩)
      · exact Or.inr hacc
      · rcases hc with hc | hc
        · exact absurd hc (by omega)
        · exact absurd hc.2 (by omega)
      · exact Or.inl rfl
  · constructor
    · intro hacc
      exact Or.inl hacc
    · rintro (hacc | ⟨rfl, hc⟩ | ⟨rfl, hlt, hle, hy, hm⟩)
      · exact hacc
      · rcases hc with hc | hc
        · exact absurd hc (by omega)
        · exact absurd hc.2 (by omega)
      · exact absurd ⟨hy, hm⟩ h3

theorem mem_workDaysOf_aux (day_date : PyDate) (year : Int) (month : Nat) :
    ∀ (ws : List (Int × Int × Int)) (acc : Finset PyDate) (d : PyDate),
      d ∈ ws.foldl (workDayStep day_date year month) acc ↔
        d ∈ acc ∨ ∃ w ∈ ws,
          (d = day_date ∧ (480 ≤ w.1 ∨ (w.1 < 480 ∧ 480 < w.2.1))) ∨
          (d = day_date.prevDay ∧ w.1 < 480 ∧ w.2.1 ≤ 480 ∧
            day_date.prevDay.year = year ∧ day_date.prevDay.month = month) := by
  intro ws
  induction ws with
  | nil => intro acc d; simp
  | cons w rest ih =>
    intro acc d
    rw [List.foldl_cons, ih, mem_workDayStep]
    simp only [List.mem_cons, exists_eq_or_imp]
    rw [or_assoc]

/-- C6: a date `d` is recorded as an actual work day of a processed day
exactly when some (deduplicated) work segment of that day puts it there: the
day's own date when the segment starts at/after 08:00 (minute 480) or spans
08:00, and the previous calendar date when the segment lies entirely at or
before 08:00 — the latter only when that previous date is inside the
requested (year, month). -/
theorem work_day_boundary_rule (rateFn : RateFn) (cache : ShabbatCache)
    (year : Int) (month : Nat) (entry : DayEntry) (d : PyDate) :
    d ∈ (processDay rateFn cache year month entry).workDays ↔
      ∃ w ∈ dayWorkOfEntry entry,
        (d = entry.date ∧ (480 ≤ w.1 ∨ (w.1 < 480 ∧ 480 < w.2.1))) ∨
        (d = entry.date.prevDay ∧ w.1 < 480 ∧ w.2.1 ≤ 480 ∧
          entry.date.prevDay.year = year ∧ entry.date.prevDay.month = month) := by
  have hp : (processDay rateFn cache year month entry).workDays
      = workDaysOf entry.date year month (dayWorkOfEntry entry) := rfl
  rw [hp, workDaysOf, mem_workDaysOf_aux]
  simp

/-! ## C10: every chain minute lands in exactly one tier bucket -/

/-- The five disjoint tier buckets of a chain result. -/
def sumFive (b : WageBuckets) : Nat :=
  b.calc100 + b.calc125 + b.calc150 + b.calc175 + b.calc200

theorem bucketsAddMinute_sumFive (b : WageBuckets) (n : Int) (s : Bool) :
    sumFive (bucketsAddMinute b (calculate_wage_rate n s) s) = sumFive b + 1 := by
  unfold calculate_wage_rate REGULAR_HOURS_LIMIT OVERTIME_125_LIMIT
  split_ifs <;> simp_all [bucketsAddMinute, sumFive] <;> omega

theorem bucketsAddMinute_split (b : WageBuckets) (n : Int) (s : Bool)
    (h : b.calc150 = b.calc150_shabbat + b.calc150_overtime) :
    (bucketsAddMinute b (calculate_wage_rate n s) s).calc150 =
      (bucketsAddMinute b (calculate_wage_rate n s) s).calc150_shabbat +
        (bucketsAddMinute b (calculate_wage_rate n s) s).calc150_overtime := by
  unfold calculate_wage_rate REGULAR_HOURS_LIMIT OVERTIME_125_LIMIT
  split_ifs <;> simp_all [bucketsAddMinute] <;> omega

theorem chainMinute_sumFive (day_date : PyDate) (cache : ShabbatCache) (s0 sid : Int)
    (p : Int × WageBuckets) (m : Nat) :
    sumFive (chainMinute day_date cache s0 sid p m).2 = sumFive p.2 + 1 := by
  simp only [chainMinute]
  exact bucketsAddMinute_sumFive _ _ _

theorem chainMinute_split (day_date : PyDate) (cache : ShabbatCache) (s0 sid : Int)
    (p : Int × WageBuckets) (m : Nat)
    (h : p.2.calc150 = p.2.calc150_shabbat + p.2.calc150_overtime) :
    (chainMinute day_date cache s0 sid p m).2.calc150 =
      (chainMinute day_date cache s0 sid p m).2.calc150_shabbat +
        (chainMinute day_date cache s0 sid p m).2.calc150_overtime := by
  simp only [chainMinute]
  exact bucketsAddMinute_split _ _ _ h

theorem foldl_chainMinute_invariant (day_date : PyDate) (cache : ShabbatCache) (s0 sid : Int) :
    ∀ (n : Nat) (p : Int × WageBuckets),
      sumFive ((List.range n).foldl (chainMinute day_date cache s0 sid) p).2
          = sumFive p.2 + n ∧
        (p.2.calc150 = p.2.calc150_shabbat + p.2.calc150_overtime →
          ((List.range n).foldl (chainMinute day_date cache s0 sid) p).2.calc150 =
            ((List.range n).foldl (chainMinute day_date cache s0 sid) p).2.calc150_shabbat +
              ((List.range n).foldl (chainMinute day_date cache s0 sid) p).2.calc150_overtime) := by
  intro n
  induction n with
  | zero => intro p; simp
  | succ k ih =>
    intro p
    rw [List.range_succ, List.foldl_append, List.foldl_cons, List.foldl_nil]
    constructor
    · rw [chainMinute_sumFive, (ih p).1]
      omega
    · intro h
      exact chainMinute_split _ _ _ _ _ _ ((ih p).2 h)

theorem chainSeg_invariant (day_date : PyDate) (cache : ShabbatCache)
    (p : Int × WageBuckets) (seg : Int × Int × Int) :
    sumFive (chainSeg day_date cache p seg).2 = sumFive p.2 + (seg.2.1 - seg.1).toNat ∧
      (p.2.calc150 = p.2.calc150_shabbat + p.2.calc150_overtime →
        (chainSeg day_date cache p seg).2.calc150 =
          (chainSeg day_date cache p seg).2.calc150_shabbat +
            (chainSeg day_date cache p seg).2.calc150_overtime) := by
  unfold chainSeg
  exact foldl_chainMinute_invariant day_date cache seg.1 seg.2.2 (seg.2.1 - seg.1).toNat p

theorem foldl_chainSeg_invariant (day_date : PyDate) (cache : ShabbatCache) :
    ∀ (chain : List (Int × Int × Int)) (p : Int × WageBuckets),
      sumFive (chain.foldl (chainSeg day_date cache) p).2
          = sumFive p.2 + (chain.map (fun seg => (seg.2.1 - seg.1).toNat)).sum ∧
        (p.2.calc150 = p.2.calc150_shabbat + p.2.calc150_overtime →
          (chain.foldl (chainSeg day_date cache) p).2.calc150 =
            (chain.foldl (chainSeg day_date cache) p).2.calc150_shabbat +
              (chain.foldl (chainSeg day_date cache) p).2.calc150_overtime) := by
  intro chain
  induction chain with
  | nil => intro p; simp
  | cons seg rest ih =>
    intro p
    rw [List.foldl_cons]
    constructor
    · rw [(ih (chainSeg day_date cache p seg)).1, (chainSeg_invariant day_date cache p seg).1]
      simp [List.sum_cons]
      omega
    · intro h
      exact (ih _).2 ((chainSeg_invariant day_date cache p seg).2 h)

theorem toNat_sum_of_pos :
    ∀ (chain : List (Int × Int × Int)), (∀ seg ∈ chain, seg.1 < seg.2.1) →
      ((((chain.map (fun seg => (seg.2.1 - seg.1).toNat)).sum : Nat)) : Int)
        = (chain.map (fun seg => seg.2.1 - seg.1)).sum := by
  intro chain
  induction chain with
  | nil => intro h; simp
  | cons seg rest ih =>
    intro h
    simp only [List.map_cons, List.sum_cons, Nat.cast_add]
    rw [Int.toNat_of_nonneg (by have := h seg (List.mem_cons_self _ _); omega),
      ih (fun s hs => h s (List.mem_cons_of_mem _ hs))]

/-- C10: for a chain of segments each with positive length, the five tier
buckets returned by the chain wage calculation partition the chain's minutes:
calc100 + calc125 + calc150 + calc175 + calc200 equals the summed segment
durations, and calc150 splits exactly into its Shabbat and overtime parts. -/
theorem chain_tier_minutes_partition (chain : List (Int × Int × Int))
    (day_date : PyDate) (cache : ShabbatCache)
    (h : ∀ seg ∈ chain, seg.1 < seg.2.1) :
    (((calculate_chain_wages chain day_date cache).calc100
        + (calculate_chain_wages chain day_date cache).calc125
        + (calculate_chain_wages chain day_date cache).calc150
        + (calculate_chain_wages chain day_date cache).calc175
        + (calculate_chain_wages chain day_date cache).calc200 : Nat) : Int)
      = (chain.map (fun seg => seg.2.1 - seg.1)).sum ∧
    (calculate_chain_wages chain day_date cache).calc150
      = (calculate_chain_wages chain day_date cache).calc150_shabbat
        + (calculate_chain_wages chain day_date cache).calc150_overtime := by
  have hmain := foldl_chainSeg_invariant day_date cache chain (0, WageBuckets.init)
  constructor
  · have h1 : ((calculate_chain_wages chain day_date cache).calc100
        + (calculate_chain_wages chain day_date cache).calc125
        + (calculate_chain_wages chain day_date cache).calc150
        + (calculate_chain_wages chain day_date cache).calc175
        + (calculate_chain_wages chain day_date cache).calc200 : Nat)
        = sumFive (calculate_chain_wages chain day_date cache) := rfl
    rw [h1]
    have h2 : sumFive (calculate_chain_wages chain day_date cache)
        = (chain.map (fun seg => (seg.2.1 - seg.1).toNat)).sum := by
      have := hmain.1
      simp [WageBuckets.init, sumFive, calculate_chain_wages] at this ⊢
      omega
    rw [h2]
    exact toNat_sum_of_pos chain h
  · exact hmain.2 rfl

/-- Witness for C10 on a two-minute chain. -/
theorem chain_tier_minutes_partition_check :
    (((calculate_chain_wages [((0 : Int), (2 : Int), (0 : Int))] ⟨2025, 1, 6⟩
          emptyShabbatCache).calc100
        + (calculate_chain_wages [((0 : Int), (2 : Int), (0 : Int))] ⟨2025, 1, 6⟩
            emptyShabbatCache).calc125
        + (calculate_chain_wages [((0 : Int), (2 : Int), (0 : Int))] ⟨2025, 1, 6⟩
            emptyShabbatCache).calc150
        + (calculate_chain_wages [((0 : Int), (2 : Int), (0 : Int))] ⟨2025, 1, 6⟩
            emptyShabbatCache).calc175
        + (calculate_chain_wages [((0 : Int), (2 : Int), (0 : Int))] ⟨2025, 1, 6⟩
            emptyShabbatCache).calc200 : Nat) : Int)
      = ([((0 : Int), (2 : Int), (0 : Int))].map (fun seg => seg.2.1 - seg.1)).sum ∧
    (calculate_chain_wages [((0 : Int), (2 : Int), (0 : Int))] ⟨2025, 1, 6⟩
        emptyShabbatCache).calc150
      = (calculate_chain_wages [((0 : Int), (2 : Int), (0 : Int))] ⟨2025, 1, 6⟩
          emptyShabbatCache).calc150_shabbat
        + (calculate_chain_wages [((0 : Int), (2 : Int), (0 : Int))] ⟨2025, 1, 6⟩
            emptyShabbatCache).calc150_overtime :=
  chain_tier_minutes_partition [((0 : Int), (2 : Int), (0 : Int))] ⟨2025, 1, 6⟩
    emptyShabbatCache (by decide)

/-! ## C4: accrual scenario with 21 actual work days -/

/-- C4 counterexample: for `actual_work_days = 21` and a start date giving a
3rd seniority year (2023-02-01 seen from 2025-06), the code selects the
**6-day-week** table (since 21 > 20) and returns `annual_quota = 14`, not the
claimed 5-day-table value 12. -/
theorem accruals_scenario_e_counterexample :
    (calculate_accruals 21 (some ⟨2023, 2, 1⟩) 2025 6).vacation_details.seniority = 3 ∧
    (calculate_accruals 21 (some ⟨2023, 2, 1⟩) 2025 6).vacation_details.annual_quota = 14 ∧
    (14 : Int) ≠ 12 := by
  refine ⟨?_, ?_, by norm_num⟩
  · norm_num [calculate_accruals, pyTrunc, PyDate.toordinal, daysBeforeYear, daysBeforeMonth,
      daysInMonth, isLeapYear, List.range']
  · norm_num [calculate_accruals, calculate_annual_vacation_quota, pyTrunc, PyDate.toordinal,
      daysBeforeYear, daysBeforeMonth, daysInMonth, isLeapYear, List.range']

/-- C4 amended: with `actual_work_days = 21` the 6-day-week table is selected
(21 > 20), so a 3rd seniority year yields `annual_quota = 14`,
`job_scope = min(21/21.66, 1) ≈ 0.9695` and
`vacation_days_accrued = (14/12) · job_scope ≈ 1.1311`. -/
theorem accruals_21_days_third_year (start_date : Option PyDate) (year : Int) (month : Nat)
    (h : (calculate_accruals 21 start_date year month).vacation_details.seniority = 3) :
    (calculate_accruals 21 start_date year month).vacation_details.annual_quota = 14 ∧
    (calculate_accruals 21 start_date year month).vacation_days_accrued
      = ((14 : ℚ) / 12) * min ((21 : ℚ) / (2166 / 100)) 1 := by
  simp only [calculate_accruals, STANDARD_WORK_DAYS_PER_MONTH] at h ⊢
  rw [h]
  norm_num [calculate_annual_vacation_quota]

/-- Witness for C4's amended claim at the concrete 3rd-year start date. -/
theorem accruals_21_days_third_year_check :
    (calculate_accruals 21 (some ⟨2023, 2, 1⟩) 2025 6).vacation_details.annual_quota = 14 ∧
    (calculate_accruals 21 (some ⟨2023, 2, 1⟩) 2025 6).vacation_days_accrued
      = ((14 : ℚ) / 12) * min ((21 : ℚ) / (2166 / 100)) 1 :=
  accruals_21_days_third_year (some ⟨2023, 2, 1⟩) 2025 6
    (by norm_num [calculate_accruals, pyTrunc, PyDate.toordinal, daysBeforeYear,
      daysBeforeMonth, daysInMonth, isLeapYear, List.range'])

/-! ## C2: coverage of report parts by the daily segment builder -/

def uncoveredReport : Report :=
  ⟨⟨2025, 1, 10⟩, some "08:00", some "12:00", some 1, none, none, none, none⟩

def uncoveredSegmap : List (Int × List SegTemplate) :=
  [(1, [⟨some 5, "08:00", "10:00", 100, "work"⟩])]

/-- C2 counterexample: a report part 08:00-12:00 (240 minutes) whose shift
type has one template 08:00-10:00 records only 120 minutes into segments; the
uncovered 10:00-12:00 half is silently dropped rather than recorded as plain
100%-labelled work. -/
theorem uncovered_minutes_dropped :
    contributionMinutes (reportContribution uncoveredReport uncoveredSegmap 2025 1) = 120 ∧
    (splitParts (⟨2025, 1, 10⟩ : PyDate) 480 720).map (fun p => p.2.2 - p.2.1) = [240] ∧
    span_minutes "08:00" "12:00" = some (480, 720) ∧
    (120 : Int) ≠ 240 :=
  ⟨by decide, by decide, by decide, by decide⟩

theorem segsLoop_synth (r_start r_end p_start p_end : Int) (is_second is_vac : Bool)
    (sid : Int) (apt : Option Int) (married : Option Bool) (st et : String)
    (hspan : span_minutes st et = some (r_start, r_end)) :
    segsLoop r_start r_end p_start p_end is_second is_vac sid apt married
      [{ tid := none, start_time := st, end_time := et,
         wage_percent := 100, segment_type := "work" }]
    = (if overlap_minutes p_start p_end
          (if is_second then r_start - MINUTES_PER_DAY else r_start)
          (if is_second then r_end - MINUTES_PER_DAY else r_end) ≤ 0 then some []
       else some [{ start := max (if is_second then r_start - MINUTES_PER_DAY else r_start)
                      p_start,
                    stop := min (if is_second then r_end - MINUTES_PER_DAY else r_end) p_end,
                    segType := if is_vac then "vacation" else "work",
                    shiftTypeId := sid, segId := none, aptTypeId := apt,
                    isMarried := married }]) := by
  simp only [segsLoop, hspan, lt_irrefl, and_false, if_false, ite_false]

theorem partsLoop_nil (rd : PyDate) (rs re : Int) (bv : Bool) (sid : Int)
    (apt : Option Int) (mar : Option Bool) (segl : List SegTemplate) (y : Int) (m : Nat) :
    partsLoop rd rs re bv sid apt mar segl y m [] = some [] := rfl

theorem partsLoop_cons (rd : PyDate) (rs re : Int) (bv : Bool) (sid : Int)
    (apt : Option Int) (mar : Option Bool) (segl : List SegTemplate) (y : Int) (m : Nat)
    (p : PyDate × Int × Int) (rest : List (PyDate × Int × Int)) :
    partsLoop rd rs re bv sid apt mar segl y m (p :: rest)
      = if p.1.year = y ∧ p.1.month = m then
          match segsLoop rs re p.2.1 p.2.2 (decide (rd.toordinal < p.1.toordinal))
              bv sid apt mar segl,
            partsLoop rd rs re bv sid apt mar segl y m rest with
          | some segs, some tail => some (segs.map (fun s => (p.1, s)) ++ tail)
          | _, _ => none
        else partsLoop rd rs re bv sid apt mar segl y m rest := rfl

/-- C2 amended: the coverage guarantee holds in the no-template case: when the
shift type has no templates, the synthetic 100%-work template spanning the
report's own times makes the minutes recorded for every in-month part equal
the part's duration.  (When templates exist but do not cover the whole part,
the uncovered minutes are dropped — see the counterexample.) -/
theorem daily_builder_coverage_without_templates
    (r : Report) (segments_by_shift : List (Int × List SegTemplate))
    (year : Int) (month : Nat) (st et : String) (sid : Int)
    (hst : r.start_time = some st) (het : r.end_time = some et)
    (hsid : r.shift_type_id = some sid)
    (hstT : st ≠ "") (hetT : et ≠ "") (hsid0 : sid ≠ 0)
    (hnoseg : lookupSegs segments_by_shift sid = [])
    (r_start r_end : Int) (hspan : span_minutes st et = some (r_start, r_end))
    (h1 : r_start < 1440) (hlt : r_start < r_end)
    (hval : r.rdate.Valid) :
    ∃ L, reportContribution r segments_by_shift year month = some L ∧
      ∀ p ∈ splitParts r.rdate r_start r_end,
        p.1.year = year → p.1.month = month →
        ((L.filter (fun e => e.1 = p.1)).map (fun e => e.2.stop - e.2.start)).sum
          = p.2.2 - p.2.1 := by
  have hM : MINUTES_PER_DAY = (1440 : Int) := rfl
  have hA : pyTruthyStr (some st) = true := by simp [pyTruthyStr, hstT]
  have hB : pyTruthyStr (some et) = true := by simp [pyTruthyStr, hetT]
  have hC : pyTruthyInt (some sid) = true := by simp [pyTruthyInt, hsid0]
  have hrc : reportContribution r segments_by_shift year month
      = partsLoop r.rdate r_start r_end
          ((r.work_type == some "sick_vacation")
            || pyInStr "חופשה" (r.shift_name.getD "")
            || pyInStr "מחלה" (r.shift_name.getD "")) sid
          r.apartment_type_id r.is_married
          [{ tid := none, start_time := st, end_time := et,
             wage_percent := 100, segment_type := "work" }]
          year month (splitParts r.rdate r_start r_end) := by
    simp [reportContribution, hst, het, hsid, hA, hB, hC, hspan, hnoseg]
  generalize hbv : ((r.work_type == some "sick_vacation")
      || pyInStr "חופשה" (r.shift_name.getD "")
      || pyInStr "מחלה" (r.shift_name.getD "")) = bv at hrc
  have hs1 : (decide (r.rdate.toordinal < r.rdate.toordinal)) = false := by simp
  rcases le_or_lt r_end MINUTES_PER_DAY with hcr | hcr
  · -- the report does not cross midnight: a single part
    have hparts : splitParts r.rdate r_start r_end = [(r.rdate, r_start, r_end)] := by
      unfold splitParts
      rw [if_pos hcr]
    rw [hparts] at hrc
    have hseg := segsLoop_synth r_start r_end r_start r_end false bv sid
        r.apartment_type_id r.is_married st et hspan
    simp only [Bool.false_eq_true, if_false] at hseg
    have hover : ¬ (overlap_minutes r_start r_end r_start r_end ≤ 0) := by
      unfold overlap_minutes
      omega
    rw [if_neg hover] at hseg
    by_cases hin : r.rdate.year = year ∧ r.rdate.month = month
    · refine ⟨[(r.rdate, { start := max r_start r_start, stop := min r_end r_end,
                           segType := if bv then "vacation" else "work",
                           shiftTypeId := sid, segId := none,
                           aptTypeId := r.apartment_type_id,
                           isMarried := r.is_married })], ?_, ?_⟩
      · rw [hrc, partsLoop_cons, if_pos hin, hs1, hseg, partsLoop_nil]
        rfl
      · intro p hp hy hm
        rw [hparts, List.mem_singleton] at hp
        subst hp
        simp [List.filter_cons]
    · refine ⟨[], ?_, ?_⟩
      · rw [hrc, partsLoop_cons, if_neg hin, partsLoop_nil]
      · intro p hp hy hm
        rw [hparts, List.mem_singleton] at hp
        subst hp
        exact absurd ⟨hy, hm⟩ hin
  · -- the report crosses midnight: two parts
    have hparts : splitParts r.rdate r_start r_end
        = [(r.rdate, r_start, MINUTES_PER_DAY),
           (r.rdate.nextDay, 0, r_end - MINUTES_PER_DAY)] := by
      unfold splitParts
      rw [if_neg (not_le.mpr hcr)]
    rw [hparts] at hrc
    have hord := toordinal_nextDay r.rdate hval
    have hs2 : (decide (r.rdate.toordinal < (r.rdate.nextDay).toordinal)) = true := by
      rw [hord]
      simp
    have hne : r.rdate.nextDay ≠ r.rdate := by
      intro he
      rw [he] at hord
      omega
    have hseg1 := segsLoop_synth r_start r_end r_start MINUTES_PER_DAY false bv sid
        r.apartment_type_id r.is_married st et hspan
    simp only [Bool.false_eq_true, if_false] at hseg1
    have hov1 : ¬ (overlap_minutes r_start MINUTES_PER_DAY r_start r_end ≤ 0) := by
      unfold overlap_minutes
      rw [hM] at hcr ⊢
      omega
    rw [if_neg hov1] at hseg1
    have hseg2 := segsLoop_synth r_start r_end 0 (r_end - MINUTES_PER_DAY) true bv sid
        r.apartment_type_id r.is_married st et hspan
    simp only [if_true] at hseg2
    have hov2 : ¬ (overlap_minutes 0 (r_end - MINUTES_PER_DAY) (r_start - MINUTES_PER_DAY)
        (r_end - MINUTES_PER_DAY) ≤ 0) := by
      unfold overlap_minutes
      rw [hM] at hcr ⊢
      omega
    rw [if_neg hov2] at hseg2
    by_cases hin1 : r.rdate.year = year ∧ r.rdate.month = month <;>
      by_cases hin2 : (r.rdate.nextDay).year = year ∧ (r.rdate.nextDay).month = month
    · refine ⟨[(r.rdate, { start := max r_start r_start,
                           stop := min r_end MINUTES_PER_DAY,
                           segType := if bv then "vacation" else "work",
                           shiftTypeId := sid, segId := none,
                           aptTypeId := r.apartment_type_id,
                           isMarried := r.is_married }),
        (r.rdate.nextDay, { start := max (r_start - MINUTES_PER_DAY) 0,
                            stop := min (r_end - MINUTES_PER_DAY) (r_end - MINUTES_PER_DAY),
                            segType := if bv then "vacation" else "work",
                            shiftTypeId := sid, segId := none,
                            aptTypeId := r.apartment_type_id,
                            isMarried := r.is_married })], ?_, ?_⟩
      · rw [hrc, partsLoop_cons, if_pos hin1, hs1, hseg1, partsLoop_cons, if_pos hin2,
          hs2, hseg2, partsLoop_nil]
        rfl
      · intro p hp hy hm
        rw [hparts] at hp
        rcases List.mem_cons.mp hp with hp1 | hp1
        · subst hp1
          simp [List.filter_cons, hne, Ne.symm hne]
          rw [hM] at hcr ⊢
          omega
        · rw [List.mem_singleton] at hp1
          subst hp1
          simp [List.filter_cons, hne, Ne.symm hne]
          rw [hM] at hcr ⊢
          omega
    · refine ⟨[(r.rdate, { start := max r_start r_start,
                           stop := min r_end MINUTES_PER_DAY,
                           segType := if bv then "vacation" else "work",
                           shiftTypeId := sid, segId := none,
                           aptTypeId := r.apartment_type_id,
                           isMarried := r.is_married })], ?_, ?_⟩
      · rw [hrc, partsLoop_cons, if_pos hin1, hs1, hseg1, partsLoop_cons, if_neg hin2,
          partsLoop_nil]
        rfl
      · intro p hp hy hm
        rw [hparts] at hp
        rcases List.mem_cons.mp hp with hp1 | hp1
        · subst hp1
          simp [List.filter_cons]
          rw [hM] at hcr ⊢
          omega
        · rw [List.mem_singleton] at hp1
          subst hp1
          exact absurd ⟨hy, hm⟩ hin2
    · refine ⟨[(r.rdate.nextDay, { start := max (r_start - MINUTES_PER_DAY) 0,
                                   stop := min (r_end - MINUTES_PER_DAY) (r_end - MINUTES_PER_DAY),
                                   segType := if bv then "vacation" else "work",
                                   shiftTypeId := sid, segId := none,
                                   aptTypeId := r.apartment_type_id,
                                   isMarried := r.is_married })], ?_, ?_⟩
      · rw [hrc, partsLoop_cons, if_neg hin1, partsLoop_cons, if_pos hin2, hs2, hseg2,
          partsLoop_nil]
        rfl
      · intro p hp hy hm
        rw [hparts] at hp
        rcases List.mem_cons.mp hp with hp1 | hp1
        · subst hp1
          exact absurd ⟨hy, hm⟩ hin1
        · rw [List.mem_singleton] at hp1
          subst hp1
          simp [List.filter_cons]
          rw [hM] at hcr ⊢
          omega
    · refine ⟨[], ?_, ?_⟩
      · rw [hrc, partsLoop_cons, if_neg hin1, partsLoop_cons, if_neg hin2, partsLoop_nil]
      · intro p hp hy hm
        rw [hparts] at hp
        rcases List.mem_cons.mp hp with hp1 | hp1
        · subst hp1
          exact absurd ⟨hy, hm⟩ hin1
        · rw [List.mem_singleton] at hp1
          subst hp1
          exact absurd ⟨hy, hm⟩ hin2

def coverageReport : Report :=
  ⟨⟨2025, 1, 10⟩, some "23:00", some "01:30", some 1, none, none, none, none⟩

/-- Witness for C2's amended claim: a midnight-crossing report with no
templates covers both of its parts exactly. -/
theorem daily_builder_coverage_without_templates_check :
    ∃ L, reportContribution coverageReport [] 2025 1 = some L ∧
      ∀ p ∈ splitParts coverageReport.rdate 1380 1530,
        p.1.year = 2025 → p.1.month = 1 →
        ((L.filter (fun e => e.1 = p.1)).map (fun e => e.2.stop - e.2.start)).sum
          = p.2.2 - p.2.1 :=
  daily_builder_coverage_without_templates coverageReport [] 2025 1 "23:00" "01:30" 1
    rfl rfl rfl (by decide) (by decide) (by decide) rfl 1380 1530 (by decide)
    (by decide) (by decide) (by decide)
